import Mathlib

/-!
Verification of the two-stage technician assignment / scheduling pipeline.

Stage (a) is `src/solve_assignment.py`: a min-max load-balancing binary
assignment LP (PuLP).  Stage (b) is `src/solve_schedule_cp.py`: a
per-technician no-overlap interval scheduling model (CP-SAT).

The embedding below translates the constraint construction and the
post-solve result construction of both scripts.  A "solution" is the
value assignment the solver returns; feasibility predicates state exactly
the constraints the scripts post to the solver.
-/

set_option maxRecDepth 4096

/-! ## Stage (a): data model (`jobs_clean.csv`, `tecnicos_clean.csv`,
`habilidades_clean.csv` rows, after column normalisation) -/

/-- A row of the jobs table: `id_job`, `duracion_horas`, `skill_requerida`.
Durations are real numbers in the CSV; modelled as rationals. -/
structure Job where
  id_job : String
  duracion_horas : ℚ
  skill_requerida : String
  deriving DecidableEq, Repr

/-- A row of the technicians table: `id_tecnico`, `capacidad_diaria_h`. -/
structure Tecnico where
  id_tecnico : String
  capacidad_diaria_h : ℚ
  deriving DecidableEq, Repr

/-- A row of the compatibility table: `id_job`, `id_tecnico`, `compatible`. -/
structure Habilidad where
  id_job : String
  id_tecnico : String
  compatible : ℚ
  deriving DecidableEq, Repr

/-- `J = jobs['id_job'].tolist()`. -/
def jobIds (jobs : List Job) : List String := jobs.map (·.id_job)

/-- `T = tecnicos['id_tecnico'].tolist()`. -/
def tecIds (tecnicos : List Tecnico) : List String := tecnicos.map (·.id_tecnico)

/-- `p = jobs.set_index('id_job')['duracion_horas'].to_dict()`: a dict, so
for a duplicated id the last row wins.  Lookup of a missing key is never
performed by the script; default 0 stands for that impossible case. -/
def pDur (jobs : List Job) (j : String) : ℚ :=
  ((jobs.reverse.find? (fun jb => jb.id_job == j)).map (·.duracion_horas)).getD 0

/-- `H = (tecnicos.set_index('id_tecnico')['capacidad_diaria_h'] * 7).to_dict()`. -/
def hCap (tecnicos : List Tecnico) (t : String) : ℚ :=
  ((tecnicos.reverse.find? (fun tc => tc.id_tecnico == t)).map (·.capacidad_diaria_h)).getD 0 * 7

/-- `jobs.loc[jobs['id_job'] == j, 'skill_requerida'].values[0]`: first
matching row. -/
def skillOf (jobs : List Job) (j : String) : String :=
  ((jobs.find? (fun jb => jb.id_job == j)).map (·.skill_requerida)).getD ""

/-- The value the dict `q = {(id_job, id_tecnico): compatible, ...}` holds
for a pair, i.e. the `compatible` field of the last table row for that
pair; `0` when the pair is absent from the table (then the dict has no
entry and the script posts no constraint for the pair). -/
def qVal (habilidades : List Habilidad) (j t : String) : Option ℚ :=
  ((habilidades.reverse.find? (fun h => h.id_job == j && h.id_tecnico == t)).map (·.compatible))

/-- `qVal` with the claim's "absent pair counts as 0" reading. -/
def qValOrZero (habilidades : List Habilidad) (j t : String) : ℚ :=
  (qVal habilidades j t).getD 0

/-- A solver valuation for stage (a): the binary variables `x[(j, t)]`
(read back through `pulp.value(...) == 1`) and the continuous `L`. -/
structure AsgSolution where
  x : String → String → Bool
  L : ℚ

/-- The per-technician linear load expression
`pulp.lpSum(p[j] * x[(j, t)] for j in J)`. -/
def cargaLin (jobs : List Job) (sol : AsgSolution) (t : String) : ℚ :=
  ((jobIds jobs).map (fun j => pDur jobs j * (if sol.x j t then (1 : ℚ) else 0))).sum

/-- Exactly the constraints `solve_assignment.py` posts (sections 4.1-4.4
of the script, plus the variable domains: `x` binary is built into the
`Bool` representation, `L` has `lowBound=0`):
4.1 `Asignacion_Unica_j`: for each job, the x-row sums to 1;
4.2 `Compatibilidad_j_t`: one upper-bound constraint per *entry of the
    dict `q`*, i.e. per (job, technician) pair occurring in the table,
    with the last row's `compatible` value;
4.3 `Balance_Carga_t`: load of each technician is at most `L`;
4.4 `Capacidad_t`: load of each technician is at most `H[t]`. -/
def asgFeasible (jobs : List Job) (tecnicos : List Tecnico)
    (habilidades : List Habilidad) (sol : AsgSolution) : Prop :=
  (∀ j ∈ jobIds jobs,
      ((tecIds tecnicos).map (fun t => if sol.x j t then (1 : ℕ) else 0)).sum = 1) ∧
  (∀ h ∈ habilidades,
      (if sol.x h.id_job h.id_tecnico then (1 : ℚ) else 0) ≤
        qValOrZero habilidades h.id_job h.id_tecnico) ∧
  (∀ t ∈ tecIds tecnicos, cargaLin jobs sol t ≤ sol.L) ∧
  (∀ t ∈ tecIds tecnicos, cargaLin jobs sol t ≤ hCap tecnicos t) ∧
  0 ≤ sol.L

instance (jobs : List Job) (tecnicos : List Tecnico)
    (habilidades : List Habilidad) (sol : AsgSolution) :
    Decidable (asgFeasible jobs tecnicos habilidades sol) := by
  unfold asgFeasible; infer_instance

/-- A row of `assignment_results.csv` before the technician merge
(the merge only appends technician metadata columns). -/
structure ResultRow where
  job_id : String
  tecnico_id : String
  duracion_horas : ℚ
  skill_requerida : String
  deriving DecidableEq, Repr

/-- The `resultados` list built in section 7 of the script: outer loop
over technicians, inner loop over jobs, keeping pairs whose variable
value is 1. -/
def resultados (jobs : List Job) (tecnicos : List Tecnico) (sol : AsgSolution) :
    List ResultRow :=
  ((tecIds tecnicos).map (fun t =>
    ((jobIds jobs).filter (fun j => sol.x j t)).map (fun j =>
      { job_id := j, tecnico_id := t, duracion_horas := pDur jobs j,
        skill_requerida := skillOf jobs j }))).flatten

/-- The load the script accumulates for one technician while building
`resultados`: the sum of `p[j]` over the jobs whose variable value is 1. -/
def cargaActual (jobs : List Job) (sol : AsgSolution) (t : String) : ℚ :=
  (((jobIds jobs).filter (fun j => sol.x j t)).map (pDur jobs)).sum

/-- Python-dict insertion: update the value in place when the key exists,
append otherwise. -/
def dictInsert (d : List (String × ℚ)) (k : String) (v : ℚ) : List (String × ℚ) :=
  if d.any (fun e => e.1 == k) then d.map (fun e => if e.1 == k then (k, v) else e)
  else d ++ [(k, v)]

/-- The dict `cargas_tecnicos` turned into `cargas_df` rows
(`list(cargas_tecnicos.items())`): one insertion per technician-list
element, with that technician's accumulated load. -/
def cargasTable (jobs : List Job) (tecnicos : List Tecnico) (sol : AsgSolution) :
    List (String × ℚ) :=
  (tecIds tecnicos).foldl (fun d t => dictInsert d t (cargaActual jobs sol t)) []

/-! ## Stage (b): data model (`solve_schedule_cp.py`) -/

/-- Horizon constants of `solve_schedule_cp.py`. -/
def DIAS_HORIZONTE : Int := 7

/-- Working hours per day. -/
def HORAS_POR_DIA : Int := 8

/-- `HORIZONTE_MINUTOS = DIAS_HORIZONTE * HORAS_POR_DIA * 60`. -/
def HORIZONTE_MINUTOS : Int := DIAS_HORIZONTE * HORAS_POR_DIA * 60

/-- Python `int(...)` on a rational: truncation toward zero. -/
def pyInt (q : ℚ) : Int := if 0 ≤ q then q.floor else -((-q).floor)

/-- A row of the jobs table as stage (b) reads it.  `deadlineDays` stands
for `(pd.to_datetime(row['deadline']) - datetime.now()).days`, the only
way the deadline timestamp enters the model (the subtraction against the
wall clock is given here as its integer result). -/
structure JobB where
  id_job : String
  duracion_horas : ℚ
  deadlineDays : Int
  descripcion : String
  skill_requerida : String
  deriving DecidableEq, Repr

/-- A row of the assignment artifact `assignment_results.csv`, after the
column-name fallback picked the job and technician columns. -/
structure Asig where
  job_id : String
  tecnico_id : String
  deriving DecidableEq, Repr

/-- `duracion_minutos` for one row: `int(row['duracion_horas'] * 60)`. -/
def duracionMinutos (jb : JobB) : Int := pyInt (jb.duracion_horas * 60)

/-- The size of the interval `interval_vars[j]`: the dict keeps the last
row created for an id, so for a duplicated id the last row's duration
wins; 0 stands for the impossible missing-key case. -/
def durOf (jobs : List JobB) (j : String) : Int :=
  ((jobs.reverse.find? (fun jb => jb.id_job == j)).map duracionMinutos).getD 0

/-- The interval list `jobs_por_tecnico[tec]` (by job id): assignment
rows for `tec` whose job id has an interval variable, in row order.
Rows whose job id is missing from the jobs table are skipped (with the
`jobs_omitidos` diagnostic, see `jobsOmitidos`). -/
def jobsPorTecnico (jobs : List JobB) (asigs : List Asig) (tec : String) :
    List String :=
  (asigs.filter (fun a => a.tecnico_id == tec && jobs.any (fun jb => jb.id_job == a.job_id))).map
    (·.job_id)

/-- The assignment rows the script reports with
`"Job ... no encontrado en interval_vars"` and counts in `jobs_omitidos`. -/
def omittedAsigs (jobs : List JobB) (asigs : List Asig) : List Asig :=
  asigs.filter (fun a => !(jobs.any (fun jb => jb.id_job == a.job_id)))

/-- The `jobs_omitidos` counter after the grouping loop. -/
def jobsOmitidos (jobs : List JobB) (asigs : List Asig) : Nat :=
  (omittedAsigs jobs asigs).length

/-- A solver valuation for stage (b): start and end values per job id. -/
structure ScheduleSol where
  start : String → Int
  endv : String → Int

/-- What `AddNoOverlap` demands of two members of one technician's
interval list: either they are the same interval variable (same job id),
or one has size zero (CP-SAT ignores zero-size intervals in a no-overlap
constraint), or the intervals do not overlap. -/
def noOverlapRel (jobs : List JobB) (sol : ScheduleSol) (j1 j2 : String) : Prop :=
  j1 = j2 ∨ durOf jobs j1 = 0 ∨ durOf jobs j2 = 0 ∨
    sol.endv j1 ≤ sol.start j2 ∨ sol.endv j2 ≤ sol.start j1

instance (jobs : List JobB) (sol : ScheduleSol) (j1 j2 : String) :
    Decidable (noOverlapRel jobs sol j1 j2) := by
  unfold noOverlapRel; infer_instance

/-- Exactly the constraints `solve_schedule_cp.py` posts:
- per job row: the domains `0..HORIZONTE_MINUTOS` of `start_j` and
  `end_j` (`NewIntVar`), the interval equation `end = start + duracion`
  (`NewIntervalVar`), and the model-validity requirement that the
  constant interval size is non-negative;
- per technician occurring in the assignment artifact: `AddNoOverlap`
  over that technician's interval list (section 5 of the script);
- per job row with a non-negative deadline day offset:
  `start_j <= min(dias_restantes * HORAS_POR_DIA * 60, HORIZONTE_MINUTOS)`
  (section 6 of the script); rows with a negative offset get no bound.
The makespan objective (section 7) does not constrain feasibility and is
not needed by any claim. -/
def schedFeasible (jobs : List JobB) (asigs : List Asig) (sol : ScheduleSol) : Prop :=
  (∀ jb ∈ jobs,
      0 ≤ duracionMinutos jb ∧
      0 ≤ sol.start jb.id_job ∧ sol.start jb.id_job ≤ HORIZONTE_MINUTOS ∧
      0 ≤ sol.endv jb.id_job ∧ sol.endv jb.id_job ≤ HORIZONTE_MINUTOS ∧
      sol.endv jb.id_job = sol.start jb.id_job + duracionMinutos jb) ∧
  (∀ tec ∈ asigs.map (·.tecnico_id),
      (jobsPorTecnico jobs asigs tec).Pairwise (noOverlapRel jobs sol)) ∧
  (∀ jb ∈ jobs, 0 ≤ jb.deadlineDays →
      sol.start jb.id_job ≤ min (jb.deadlineDays * (HORAS_POR_DIA * 60)) HORIZONTE_MINUTOS)

instance (jobs : List JobB) (asigs : List Asig) (sol : ScheduleSol) :
    Decidable (schedFeasible jobs asigs sol) := by
  unfold schedFeasible; infer_instance

/-- The technician shown for a job in the detailed schedule: the first
assignment row for that job id, `"No asignado"` when there is none. -/
def tecnicoAsignado (asigs : List Asig) (j : String) : String :=
  match asigs.find? (fun a => a.job_id == j) with
  | some a => a.tecnico_id
  | none => "No asignado"

/-- A row of `schedule_detailed.csv`; the `HH:MM` strings are kept as
their hour and minute components. -/
structure SchedRow where
  job_id : String
  descripcion : String
  tecnico_id : String
  dia : Int
  horaInicioH : Int
  horaInicioM : Int
  duracion_horas : ℚ
  horaFinH : Int
  horaFinM : Int
  skill_requerida : String
  deriving DecidableEq, Repr

/-- The `schedule_data` list of section 9 of the script: one row per jobs
row (every jobs row has a start variable, so the `continue` guard never
fires), with Python floor division and modulo on the minute offsets. -/
def scheduleData (jobs : List JobB) (asigs : List Asig) (sol : ScheduleSol) :
    List SchedRow :=
  jobs.map (fun jb =>
    { job_id := jb.id_job
      descripcion := jb.descripcion
      tecnico_id := tecnicoAsignado asigs jb.id_job
      dia := Int.ediv (sol.start jb.id_job) (HORAS_POR_DIA * 60) + 1
      horaInicioH := Int.ediv (Int.emod (sol.start jb.id_job) (HORAS_POR_DIA * 60)) 60
      horaInicioM := Int.emod (sol.start jb.id_job) 60
      duracion_horas := jb.duracion_horas * 60 / 60
      horaFinH := Int.ediv (Int.emod (sol.endv jb.id_job) (HORAS_POR_DIA * 60)) 60
      horaFinM := Int.emod (sol.endv jb.id_job) 60
      skill_requerida := jb.skill_requerida })

/-! ## Status handling (claims C7, C9) -/

/-- `pulp.LpStatus`: the status-code-to-name dict
`{0: "Not Solved", 1: "Optimal", -1: "Infeasible", -2: "Unbounded",
-3: "Undefined"}` (PuLP produces no other code). -/
def lpStatusName (s : Int) : String :=
  if s = 1 then "Optimal"
  else if s = 0 then "Not Solved"
  else if s = -1 then "Infeasible"
  else if s = -2 then "Unbounded"
  else "Undefined"

/-- What `prob.solve` hands back to stage (a)'s post-solve section: the
status code and the valuations `pulp.value` reads from the model —
`none` models Python `None` (no value available, as on an infeasible
run), `some v` a numeric value. -/
structure LpResult where
  status : Int
  lVal : Option ℚ
  xVal : String → String → Option ℚ

/-- The Boolean reading `pulp.value(x[(j, t)]) == 1` the output loop
applies to a valuation (in Python, `None == 1` is `False`, so a missing
value is simply skipped); packaged as an `AsgSolution` so the output
builders apply unchanged.  The `L` field carries `pulp.value(L)` with
`None` as 0; no output builder reads it. -/
def xIsOne (res : LpResult) : AsgSolution :=
  { x := fun j t => res.xVal j t == some 1, L := res.lVal.getD 0 }

/-- How stage (a)'s post-solve section (lines 114-190) terminates. -/
inductive StageAEnd
  | crashFormatNone
  | crashMergeEmpty
  | completed
  deriving DecidableEq, Repr

/-- Where stage (a) stops after `prob.solve`, in program order: the
`:.2f` format at line 116 raises `TypeError` when `pulp.value(L)` is
`None`; otherwise, when no pair's value reads as 1 the `resultados` list
stays empty, `pd.DataFrame([])` has no columns, and the merge at line
146 on `tecnico_id` raises `KeyError`; only otherwise does the run reach
the writes.  No condition mentions the solver status. -/
def stageAEnding (jobs : List Job) (tecnicos : List Tecnico) (res : LpResult) :
    StageAEnd :=
  if res.lVal = none then StageAEnd.crashFormatNone
  else if resultados jobs tecnicos (xIsOne res) = [] then StageAEnd.crashMergeEmpty
  else StageAEnd.completed

/-- What stage (a) does after `prob.solve` returns. -/
structure StageAOutcome where
  printedStatus : String
  ending : StageAEnd
  assignmentCsvWritten : Bool
  cargasCsvWritten : Bool
  logWritten : Bool
  deriving DecidableEq, Repr

/-- Stage (a)'s post-solve section: the status name is printed first
(line 115, before either crash point), and the three result files
(lines 153-158 and 181) are written exactly when the section survives
both crash points — there is no branch on the solver status anywhere in
this section. -/
def stageAPostSolve (jobs : List Job) (tecnicos : List Tecnico) (res : LpResult) :
    StageAOutcome :=
  { printedStatus := lpStatusName res.status
    ending := stageAEnding jobs tecnicos res
    assignmentCsvWritten := stageAEnding jobs tecnicos res == StageAEnd.completed
    cargasCsvWritten := stageAEnding jobs tecnicos res == StageAEnd.completed
    logWritten := stageAEnding jobs tecnicos res == StageAEnd.completed }

/-- The CP-SAT solve statuses (`cp_model`): `UNKNOWN` (also the outcome
of a timeout without a solution), `MODEL_INVALID`, `FEASIBLE`,
`INFEASIBLE`, `OPTIMAL`. -/
inductive CpStatus
  | unknown
  | modelInvalid
  | feasible
  | optimal
  | infeasible
  deriving DecidableEq, Repr

/-- The guard of section 9 of `solve_schedule_cp.py`:
`status == cp_model.OPTIMAL or status == cp_model.FEASIBLE`; the schedule
file is written exactly in that branch. -/
def stageBWritesSchedule (s : CpStatus) : Bool :=
  s == CpStatus.optimal || s == CpStatus.feasible

/-- The console message of stage (b)'s result section: the success path,
or the single undifferentiated message of the else-branch (line 209). -/
def stageBMensaje (s : CpStatus) : String :=
  if stageBWritesSchedule s then "Solucion encontrada"
  else "No se encontro solucion factible"

/-- Presence flags for stage (a)'s inputs: the three files and the
required columns `required_cols` checks (lines 42-52). -/
structure ColsA where
  jobsFile : Bool
  tecnicosFile : Bool
  habilidadesFile : Bool
  jobs_id_job : Bool
  jobs_duracion_horas : Bool
  jobs_skill_requerida : Bool
  tec_id_tecnico : Bool
  tec_capacidad_diaria_h : Bool
  hab_id_job : Bool
  hab_id_tecnico : Bool
  hab_compatible : Bool
  deriving DecidableEq, Repr

/-- The two fatal validation errors of stage (a)'s prologue. -/
inductive FalloA
  | archivoFaltante
  | columnaFaltante
  deriving DecidableEq, Repr

/-- All three input files of stage (a) exist. -/
def filesAOk (c : ColsA) : Bool := c.jobsFile && c.tecnicosFile && c.habilidadesFile

/-- All columns of stage (a)'s `required_cols` are present. -/
def colsAOk (c : ColsA) : Bool :=
  c.jobs_id_job && c.jobs_duracion_horas && c.jobs_skill_requerida &&
    c.tec_id_tecnico && c.tec_capacidad_diaria_h &&
    c.hab_id_job && c.hab_id_tecnico && c.hab_compatible

/-- The validation prologue of `solve_assignment.py` (lines 22-52): the
file-existence loop raises `FileNotFoundError` first, then the
required-column check raises `ValueError`; model construction and the
solve run only when both pass. -/
def stageAValidate (c : ColsA) : Option FalloA :=
  if !(filesAOk c) then some FalloA.archivoFaltante
  else if !(colsAOk c) then some FalloA.columnaFaltante
  else none

/-- Whether stage (a) reaches `prob.solve` (line 109). -/
def stageASolveAttempted (c : ColsA) : Bool := (stageAValidate c).isNone

/-- Presence flags for stage (b)'s inputs.  `asig_job` / `asig_tecnico`
mean that at least one of the two accepted column spellings
(`job_id`/`id_job`, `Id_tecnico`/`id_tecnico`) is present, matching the
fallback at lines 89-90. -/
structure ColsB where
  jobsFile : Bool
  tecnicosFile : Bool
  asignacionesFile : Bool
  jobs_id_job : Bool
  jobs_duracion_horas : Bool
  jobs_deadline : Bool
  jobs_descripcion : Bool
  jobs_skill_requerida : Bool
  asig_job : Bool
  asig_tecnico : Bool
  deriving DecidableEq, Repr

/-- The steps of `solve_schedule_cp.py` at which a missing input first
fails, in program order; `resultadosLoop` lies *after* `solver.Solve`. -/
inductive FaseB
  | carga
  | preparacion
  | variables
  | asignacionLoop
  | deadlineLoop
  | resultadosLoop
  deriving DecidableEq, Repr

/-- Where `solve_schedule_cp.py` first fails on missing inputs, for a
nonempty jobs table and assignment artifact and a run that reaches the
result section.  File loading is wrapped in try/except and calls `exit`
(line 34); stage (b) performs no column validation, so each later
failure is an uncaught pandas `KeyError` at the first use of the missing
column: `duracion_horas` at line 43, `id_job` at line 59, the assignment
columns at lines 102-103, `deadline` at line 129 — all before
`solver.Solve` (line 148) — and `descripcion` / `skill_requerida` at
lines 181/187, after the solve. -/
def stageBFirstFailure (c : ColsB) : Option FaseB :=
  if !(c.jobsFile && c.tecnicosFile && c.asignacionesFile) then some FaseB.carga
  else if !c.jobs_duracion_horas then some FaseB.preparacion
  else if !c.jobs_id_job then some FaseB.variables
  else if !(c.asig_tecnico && c.asig_job) then some FaseB.asignacionLoop
  else if !c.jobs_deadline then some FaseB.deadlineLoop
  else if !(c.jobs_descripcion && c.jobs_skill_requerida) then some FaseB.resultadosLoop
  else none

/-- Whether stage (b) reaches `solver.Solve` (line 148): every failure
phase except `resultadosLoop` precedes it. -/
def stageBSolveAttempted (c : ColsB) : Bool :=
  match stageBFirstFailure c with
  | none => true
  | some FaseB.resultadosLoop => true
  | some _ => false

/-! ## Concrete example instances (used to instantiate theorems) -/

/-- A two-job, two-technician instance with a fully compatible table. -/
def jobsEx : List Job :=
  [{ id_job := "j1", duracion_horas := 4, skill_requerida := "s" },
   { id_job := "j2", duracion_horas := 3, skill_requerida := "s" }]

/-- Technicians for `jobsEx`. -/
def tecsEx : List Tecnico :=
  [{ id_tecnico := "t1", capacidad_diaria_h := 8 },
   { id_tecnico := "t2", capacidad_diaria_h := 8 }]

/-- Compatibility rows for `jobsEx`/`tecsEx`: all four pairs allowed. -/
def habsEx : List Habilidad :=
  [{ id_job := "j1", id_tecnico := "t1", compatible := 1 },
   { id_job := "j1", id_tecnico := "t2", compatible := 1 },
   { id_job := "j2", id_tecnico := "t1", compatible := 1 },
   { id_job := "j2", id_tecnico := "t2", compatible := 1 }]

/-- A solver valuation assigning `j1` to `t1` and `j2` to `t2`. -/
def solEx : AsgSolution :=
  { x := fun j t => (j == "j1" && t == "t1") || (j == "j2" && t == "t2"), L := 4 }

/-! ## Stage (b) example instances -/

/-- Two jobs of 1h and 2h, both due in 5 days. -/
def jobsBEx : List JobB :=
  [{ id_job := "j1", duracion_horas := 1, deadlineDays := 5,
     descripcion := "d1", skill_requerida := "s" },
   { id_job := "j2", duracion_horas := 2, deadlineDays := 5,
     descripcion := "d2", skill_requerida := "s" }]

/-- Both example jobs are assigned to technician `t1`. -/
def asigsBEx : List Asig :=
  [{ job_id := "j1", tecnico_id := "t1" }, { job_id := "j2", tecnico_id := "t1" }]

/-- A schedule valuation: `j1` on `[0, 60)`, `j2` on `[60, 180)`. -/
def solBEx : ScheduleSol :=
  { start := fun j => if j == "j1" then 0 else 60
    endv := fun j => if j == "j1" then 60 else 180 }

/-! ## Helper lemmas, stage (a) -/

theorem mem_resultados {jobs : List Job} {tecnicos : List Tecnico} {sol : AsgSolution}
    {row : ResultRow} (hrow : row ∈ resultados jobs tecnicos sol) :
    sol.x row.job_id row.tecnico_id = true ∧ row.job_id ∈ jobIds jobs := by
  unfold resultados at hrow
  simp only [List.mem_flatten, List.mem_map] at hrow
  obtain ⟨l, ⟨t, ht, rfl⟩, hin⟩ := hrow
  simp only [List.mem_map, List.mem_filter] at hin
  obtain ⟨j, hj, rfl⟩ := hin
  exact ⟨hj.2, hj.1⟩

theorem qVal_eq_some {habilidades : List Habilidad} {j t : String} {c : ℚ}
    (hc : qVal habilidades j t = some c) :
    ∃ h ∈ habilidades, h.id_job = j ∧ h.id_tecnico = t ∧ h.compatible = c := by
  unfold qVal at hc
  obtain ⟨h, hfind, hcomp⟩ := Option.map_eq_some'.mp hc
  have hmem := List.mem_reverse.mp (List.mem_of_find?_eq_some hfind)
  have hp := List.find?_some hfind
  simp only [Bool.and_eq_true, beq_iff_eq] at hp
  exact ⟨h, hmem, hp.1, hp.2, hcomp⟩

theorem countP_beq_and {j : String} (f : String → Bool) :
    ∀ {l : List String}, l.Nodup → j ∈ l →
      l.countP (fun a => (a == j) && f a) = if f j then 1 else 0 := by
  intro l
  induction l with
  | nil => intro _ hj; cases hj
  | cons a l ih =>
    intro hnd hj
    rcases List.mem_cons.mp hj with rfl | hj'
    · rw [List.countP_cons]
      have hz : l.countP (fun a' => (a' == j) && f a') = 0 := by
        rw [List.countP_eq_zero]
        intro b hb
        have hbj : b ≠ j := fun h => (List.nodup_cons.mp hnd).1 (h ▸ hb)
        simp [hbj]
      rw [hz]; simp
    · have ha : a ≠ j := fun h => (List.nodup_cons.mp hnd).1 (h ▸ hj')
      rw [List.countP_cons]
      have hfa : ((a == j) && f a) = false := by simp [ha]
      rw [hfa]
      simp [ih (List.nodup_cons.mp hnd).2 hj']

theorem cargaActual_eq_cargaLin (jobs : List Job) (sol : AsgSolution) (t : String) :
    cargaActual jobs sol t = cargaLin jobs sol t := by
  unfold cargaActual cargaLin
  generalize jobIds jobs = l
  induction l with
  | nil => simp
  | cons a l ih =>
    by_cases h : sol.x a t
    · simp [List.filter_cons, h, ih]
    · simp [List.filter_cons, h, ih]

theorem foldl_dictInsert (f : String → ℚ) :
    ∀ (T : List String) (d : List (String × ℚ)), T.Nodup →
      (∀ t ∈ T, ∀ e ∈ d, e.1 ≠ t) →
      T.foldl (fun d t => dictInsert d t (f t)) d = d ++ T.map (fun t => (t, f t))
  | [], d, _, _ => by simp
  | t :: ts, d, hnd, hdisj => by
    have hkey : d.any (fun e => e.1 == t) = false := by
      rw [List.any_eq_false]
      intro e he
      simp [hdisj t (List.mem_cons_self t ts) e he]
    rw [List.foldl_cons]
    have hins : dictInsert d t (f t) = d ++ [(t, f t)] := by
      simp [dictInsert, hkey]
    have hd2 : ∀ t' ∈ ts, ∀ e ∈ d ++ [(t, f t)], e.1 ≠ t' := by
      intro t' ht' e he
      rcases List.mem_append.mp he with hed | hel
      · exact hdisj t' (List.mem_cons_of_mem _ ht') e hed
      · have het : e = (t, f t) := by simpa using hel
        have htt : t ≠ t' := fun h => (List.nodup_cons.mp hnd).1 (h ▸ ht')
        simpa [het] using htt
    rw [hins, foldl_dictInsert f ts (d ++ [(t, f t)]) (List.nodup_cons.mp hnd).2 hd2]
    simp

/-- `solEx` satisfies every posted stage (a) constraint. -/
theorem solEx_feasible : asgFeasible jobsEx tecsEx habsEx solEx := by
  refine ⟨by decide, by decide, ?_, ?_, by norm_num [solEx]⟩ <;>
    · intro t ht
      fin_cases ht <;>
        · simp +decide [cargaLin, jobsEx, tecsEx, solEx, jobIds, tecIds, pDur, hCap,
            List.find?]
          try norm_num

/-! ## Claim C1 -/

/-- C1, as stated, is false: with an *empty* compatibility table the
script posts no `Compatibilidad` constraint at all, so a feasible
solution assigns the job to a technician although the absent pair, read
as the claim demands, has `q = 0`, not `1`.  The instance: one job, one
technician, no compatibility rows. -/
theorem C1_absent_pair_assigned_cex :
    asgFeasible [{ id_job := "j1", duracion_horas := 4, skill_requerida := "s" }]
        [{ id_tecnico := "t1", capacidad_diaria_h := 8 }] []
        { x := fun _ _ => true, L := 4 } ∧
    ({ job_id := "j1", tecnico_id := "t1", duracion_horas := 4,
        skill_requerida := "s" } : ResultRow) ∈
      resultados [{ id_job := "j1", duracion_horas := 4, skill_requerida := "s" }]
        [{ id_tecnico := "t1", capacidad_diaria_h := 8 }]
        { x := fun _ _ => true, L := 4 } ∧
    qValOrZero [] "j1" "t1" = 0 := by
  refine ⟨⟨by decide, by decide, ?_, ?_, by norm_num⟩, by decide, by decide⟩ <;>
    · intro t ht
      fin_cases ht <;>
        · simp +decide [cargaLin, jobIds, tecIds, pDur, hCap, List.find?]
          try norm_num

/-- C1 (amended): in stage (a), for every solved assignment, an output
row assigning job `j` to technician `t` implies that *if* the pair
`(j, t)` occurs in the compatibility table, its effective (last-row)
`compatible` value is at least 1 — so for 0/1 data it is 1.  Pairs absent
from the table get no constraint and may receive assignments. -/
theorem C1_compat_present_pairs (jobs : List Job) (tecnicos : List Tecnico)
    (habilidades : List Habilidad) (sol : AsgSolution)
    (hfeas : asgFeasible jobs tecnicos habilidades sol)
    (row : ResultRow) (hrow : row ∈ resultados jobs tecnicos sol)
    (c : ℚ) (hc : qVal habilidades row.job_id row.tecnico_id = some c) :
    1 ≤ c := by
  obtain ⟨hx, -⟩ := mem_resultados hrow
  obtain ⟨h, hmem, hj, ht, hcomp⟩ := qVal_eq_some hc
  have hcon := hfeas.2.1 h hmem
  rw [hj, ht, hx] at hcon
  rw [qValOrZero, hc] at hcon
  simpa using hcon

/-- Witness for `C1_compat_present_pairs` at the concrete instance. -/
theorem C1_compat_present_pairs_wit : (1 : ℚ) ≤ 1 :=
  C1_compat_present_pairs jobsEx tecsEx habsEx solEx solEx_feasible
    { job_id := "j1", tecnico_id := "t1", duracion_horas := 4, skill_requerida := "s" }
    (by decide) 1 (by decide)

/-! ## Claim C3 -/

/-- C3: in stage (a), for every feasible solved instance (with the data
contract's unique job ids), every job id appears in exactly one row of
the assignment output: the `Asignacion_Unica` constraints force exactly
one technician column with value 1 per job, and the output loop emits
one row per such pair. -/
theorem C3_job_exactly_one_row (jobs : List Job) (tecnicos : List Tecnico)
    (habilidades : List Habilidad) (sol : AsgSolution)
    (hfeas : asgFeasible jobs tecnicos habilidades sol)
    (hJ : (jobIds jobs).Nodup) :
    ∀ j ∈ jobIds jobs,
      (resultados jobs tecnicos sol).countP (fun r => r.job_id == j) = 1 := by
  intro j hj
  unfold resultados
  rw [List.countP_flatten, List.map_map]
  have hmapeq :
      (tecIds tecnicos).map
        (List.countP (fun r : ResultRow => r.job_id == j) ∘ fun t =>
          ((jobIds jobs).filter (fun j' => sol.x j' t)).map (fun j' =>
            { job_id := j', tecnico_id := t, duracion_horas := pDur jobs j',
              skill_requerida := skillOf jobs j' })) =
      (tecIds tecnicos).map (fun t => if sol.x j t then (1 : ℕ) else 0) := by
    apply List.map_congr_left
    intro t _
    simp only [Function.comp_apply]
    rw [List.countP_map, List.countP_filter]
    exact countP_beq_and (fun a => sol.x a t) hJ hj
  rw [hmapeq]
  exact hfeas.1 j hj

/-- Witness for `C3_job_exactly_one_row` at the concrete instance. -/
theorem C3_job_exactly_one_row_wit :
    (resultados jobsEx tecsEx solEx).countP (fun r => r.job_id == "j1") = 1 :=
  C3_job_exactly_one_row jobsEx tecsEx habsEx solEx solEx_feasible (by decide)
    "j1" (by decide)

/-! ## Claim C4 -/

/-- C4: in stage (a), for every solved assignment, each technician's
accumulated load (the sum of durations of the jobs whose variable is 1,
as written to the load table) is at most the absolute capacity
`capacidad_diaria_h * 7` and at most the reported objective value `L`. -/
theorem C4_load_le_capacity_and_L (jobs : List Job) (tecnicos : List Tecnico)
    (habilidades : List Habilidad) (sol : AsgSolution)
    (hfeas : asgFeasible jobs tecnicos habilidades sol) :
    ∀ t ∈ tecIds tecnicos,
      cargaActual jobs sol t ≤ hCap tecnicos t ∧ cargaActual jobs sol t ≤ sol.L := by
  intro t ht
  rw [cargaActual_eq_cargaLin]
  exact ⟨hfeas.2.2.2.1 t ht, hfeas.2.2.1 t ht⟩

/-- Witness for `C4_load_le_capacity_and_L` at the concrete instance. -/
theorem C4_load_le_capacity_and_L_wit :
    cargaActual jobsEx solEx "t1" ≤ hCap tecsEx "t1" ∧
      cargaActual jobsEx solEx "t1" ≤ solEx.L :=
  C4_load_le_capacity_and_L jobsEx tecsEx habsEx solEx solEx_feasible "t1" (by decide)

/-! ## Claim C10 -/

/-- C10: the per-technician load table has exactly one row per technician
of the technicians table (technicians with no assigned job included,
their accumulated load being the empty sum 0), and each technician's row
records the sum of the durations of exactly the jobs whose decision
variable value is 1 for that technician. -/
theorem C10_cargas_table (jobs : List Job) (tecnicos : List Tecnico)
    (sol : AsgSolution) (hT : (tecIds tecnicos).Nodup) :
    (cargasTable jobs tecnicos sol).length = (tecIds tecnicos).length ∧
    ∀ t ∈ tecIds tecnicos,
      (t, (((jobIds jobs).filter (fun j => sol.x j t)).map (pDur jobs)).sum) ∈
        cargasTable jobs tecnicos sol := by
  have heq : cargasTable jobs tecnicos sol =
      (tecIds tecnicos).map (fun t => (t, cargaActual jobs sol t)) := by
    unfold cargasTable
    rw [foldl_dictInsert (cargaActual jobs sol) (tecIds tecnicos) [] hT (by simp)]
    simp
  constructor
  · rw [heq, List.length_map]
  · intro t ht
    rw [heq]
    exact List.mem_map.mpr ⟨t, ht, by rw [cargaActual]⟩

/-- Witness for `C10_cargas_table` at the concrete instance. -/
theorem C10_cargas_table_wit :
    (cargasTable jobsEx tecsEx solEx).length = (tecIds tecsEx).length ∧
    ∀ t ∈ tecIds tecsEx,
      (t, (((jobIds jobsEx).filter (fun j => solEx.x j t)).map (pDur jobsEx)).sum) ∈
        cargasTable jobsEx tecsEx solEx :=
  C10_cargas_table jobsEx tecsEx solEx (by decide)

/-- `duracion_minutos` of any 1-hour job row is 60. -/
theorem durMinutos_one (dd : Int) (id de sk : String) :
    duracionMinutos { id_job := id, duracion_horas := 1, deadlineDays := dd,
                      descripcion := de, skill_requerida := sk } = 60 := by
  norm_num [duracionMinutos, pyInt]
  decide

/-- `duracion_minutos` of any 2-hour job row is 120. -/
theorem durMinutos_two (dd : Int) (id de sk : String) :
    duracionMinutos { id_job := id, duracion_horas := 2, deadlineDays := dd,
                      descripcion := de, skill_requerida := sk } = 120 := by
  norm_num [duracionMinutos, pyInt]
  decide

/-- The example schedule satisfies every posted stage (b) constraint. -/
theorem solBEx_feasible : schedFeasible jobsBEx asigsBEx solBEx := by
  refine ⟨?_, ?_, ?_⟩
  · intro jb hjb
    fin_cases hjb <;>
      · simp only [durMinutos_one, durMinutos_two]
        decide
  · intro tec htec
    have htec1 : tec = "t1" := by
      simpa [asigsBEx] using htec
    subst htec1
    have hjpt : jobsPorTecnico jobsBEx asigsBEx "t1" = ["j1", "j2"] := by decide
    rw [hjpt]
    refine List.pairwise_cons.mpr ⟨?_, List.pairwise_singleton _ _⟩
    intro j' hj'
    have hj2 : j' = "j2" := by simpa using hj'
    subst hj2
    unfold noOverlapRel
    refine Or.inr (Or.inr (Or.inr (Or.inl ?_)))
    decide
  · intro jb hjb
    fin_cases hjb <;>
      · intro hd
        decide

/-! ## Claim C2 -/

/-- If a job id has a row in the jobs table, the solved end offset is the
solved start offset plus the size of its (last created) interval. -/
theorem endv_eq_start_add_durOf {jobs : List JobB} {sol : ScheduleSol}
    (hvars : ∀ jb ∈ jobs,
      0 ≤ duracionMinutos jb ∧
      0 ≤ sol.start jb.id_job ∧ sol.start jb.id_job ≤ HORIZONTE_MINUTOS ∧
      0 ≤ sol.endv jb.id_job ∧ sol.endv jb.id_job ≤ HORIZONTE_MINUTOS ∧
      sol.endv jb.id_job = sol.start jb.id_job + duracionMinutos jb)
    {j : String} (hj : jobs.any (fun jb => jb.id_job == j) = true) :
    sol.endv j = sol.start j + durOf jobs j := by
  have hsome : (jobs.reverse.find? (fun jb => jb.id_job == j)).isSome := by
    rw [List.find?_isSome]
    simp only [List.mem_reverse]
    simpa [List.any_eq_true] using hj
  obtain ⟨jb, hfind⟩ := Option.isSome_iff_exists.mp hsome
  have hpj : jb.id_job = j := by simpa using List.find?_some hfind
  have hmem : jb ∈ jobs := List.mem_reverse.mp (List.mem_of_find?_eq_some hfind)
  have h6 := (hvars jb hmem).2.2.2.2.2
  rw [durOf, hfind]
  simp only [Option.map_some', Option.getD_some]
  rw [← hpj]
  exact h6

/-- C2: in stage (b), for every solved schedule, for any technician and
any two distinct jobs both assigned to that technician in the assignment
artifact and both present in the jobs table, the half-open intervals
`[start, end)` are disjoint as sets of minutes: the script posts
`AddNoOverlap` over the technician's interval list, and a zero-size
interval denotes the empty set. -/
theorem C2_tech_intervals_disjoint (jobs : List JobB) (asigs : List Asig)
    (sol : ScheduleSol) (hfeas : schedFeasible jobs asigs sol)
    (tec j1 j2 : String)
    (h1 : ({ job_id := j1, tecnico_id := tec } : Asig) ∈ asigs)
    (h2 : ({ job_id := j2, tecnico_id := tec } : Asig) ∈ asigs)
    (hj1 : jobs.any (fun jb => jb.id_job == j1) = true)
    (hj2 : jobs.any (fun jb => jb.id_job == j2) = true)
    (hne : j1 ≠ j2) :
    ∀ m : Int, ¬(sol.start j1 ≤ m ∧ m < sol.endv j1 ∧
      sol.start j2 ≤ m ∧ m < sol.endv j2) := by
  obtain ⟨hvars, hno, -⟩ := hfeas
  have htec : tec ∈ asigs.map (·.tecnico_id) := List.mem_map.mpr ⟨_, h1, rfl⟩
  have hpair := hno tec htec
  have hmem1 : j1 ∈ jobsPorTecnico jobs asigs tec := by
    unfold jobsPorTecnico
    exact List.mem_map.mpr ⟨⟨j1, tec⟩, List.mem_filter.mpr ⟨h1, by simp [hj1]⟩, rfl⟩
  have hmem2 : j2 ∈ jobsPorTecnico jobs asigs tec := by
    unfold jobsPorTecnico
    exact List.mem_map.mpr ⟨⟨j2, tec⟩, List.mem_filter.mpr ⟨h2, by simp [hj2]⟩, rfl⟩
  have hsymm : Symmetric (noOverlapRel jobs sol) := by
    intro a b hab
    unfold noOverlapRel at hab ⊢
    tauto
  have hrel := hpair.forall hsymm hmem1 hmem2 hne
  have he1 := endv_eq_start_add_durOf hvars hj1
  have he2 := endv_eq_start_add_durOf hvars hj2
  intro m hm
  obtain ⟨hm1, hm2, hm3, hm4⟩ := hm
  rcases hrel with rfl | hd1 | hd2 | hle | hle
  · exact hne rfl
  · rw [hd1] at he1; omega
  · rw [hd2] at he2; omega
  · omega
  · omega

/-- Witness for `C2_tech_intervals_disjoint` at the concrete instance. -/
theorem C2_tech_intervals_disjoint_wit :
    ¬(solBEx.start "j1" ≤ 30 ∧ (30 : Int) < solBEx.endv "j1" ∧
      solBEx.start "j2" ≤ 30 ∧ (30 : Int) < solBEx.endv "j2") :=
  C2_tech_intervals_disjoint jobsBEx asigsBEx solBEx solBEx_feasible "t1" "j1" "j2"
    (by decide) (by decide) (by decide) (by decide) (by decide) 30

/-! ## Claim C5 -/

/-- C5: in stage (b), (i) every job whose deadline day offset
`(deadline - now).days` is non-negative gets the posted upper bound
`start <= min(offset_days * HORAS_POR_DIA * 60, HORIZONTE_MINUTOS)` in
every solved schedule; (ii) a job with a negative offset is exempt: the
loop posts no bound for it, witnessed by a feasible schedule that starts
such a job far beyond the would-be bound. -/
theorem C5_deadline_bound_and_exemption :
    (∀ (jobs : List JobB) (asigs : List Asig) (sol : ScheduleSol),
        schedFeasible jobs asigs sol → ∀ jb ∈ jobs, 0 ≤ jb.deadlineDays →
          sol.start jb.id_job ≤
            min (jb.deadlineDays * (HORAS_POR_DIA * 60)) HORIZONTE_MINUTOS) ∧
    (schedFeasible
        [{ id_job := "jn", duracion_horas := 1, deadlineDays := -2,
           descripcion := "d", skill_requerida := "s" }]
        [{ job_id := "jn", tecnico_id := "t1" }]
        { start := fun _ => 3000, endv := fun _ => 3060 } ∧
      ¬((3000 : Int) ≤ min ((-2) * (HORAS_POR_DIA * 60)) HORIZONTE_MINUTOS)) := by
  refine ⟨fun jobs asigs sol hfeas => hfeas.2.2, ⟨?_, ?_, ?_⟩, by decide⟩
  · intro jb hjb
    fin_cases hjb
    simp only [durMinutos_one]
    decide
  · intro tec htec
    have htec1 : tec = "t1" := by simpa using htec
    subst htec1
    have hjpt : jobsPorTecnico
        [{ id_job := "jn", duracion_horas := 1, deadlineDays := -2,
           descripcion := "d", skill_requerida := "s" }]
        [{ job_id := "jn", tecnico_id := "t1" }] "t1" = ["jn"] := by decide
    rw [hjpt]
    exact List.pairwise_singleton _ _
  · intro jb hjb
    fin_cases hjb
    intro hd
    exact absurd hd (by decide)

/-- Witness for the universally quantified part of
`C5_deadline_bound_and_exemption` at the concrete instance. -/
theorem C5_deadline_bound_and_exemption_wit :
    solBEx.start "j1" ≤ min ((5 : Int) * (HORAS_POR_DIA * 60)) HORIZONTE_MINUTOS :=
  C5_deadline_bound_and_exemption.1 jobsBEx asigsBEx solBEx solBEx_feasible
    { id_job := "j1", duracion_horas := 1, deadlineDays := 5,
      descripcion := "d1", skill_requerida := "s" }
    (by decide) (by decide)

/-! ## Claim C6 -/

/-- C6: in stage (b), for every solved schedule and every job row,
`end = start + duracion_minutos` exactly, and both offsets lie in
`[0, HORIZONTE_MINUTOS]` with `HORIZONTE_MINUTOS = 7 * 8 * 60`. -/
theorem C6_end_start_bounds (jobs : List JobB) (asigs : List Asig)
    (sol : ScheduleSol) (hfeas : schedFeasible jobs asigs sol) :
    HORIZONTE_MINUTOS = 7 * 8 * 60 ∧
    ∀ jb ∈ jobs,
      sol.endv jb.id_job = sol.start jb.id_job + duracionMinutos jb ∧
      0 ≤ sol.start jb.id_job ∧ sol.start jb.id_job ≤ HORIZONTE_MINUTOS ∧
      0 ≤ sol.endv jb.id_job ∧ sol.endv jb.id_job ≤ HORIZONTE_MINUTOS := by
  refine ⟨by decide, fun jb hjb => ?_⟩
  obtain ⟨-, h2, h3, h4, h5, h6⟩ := hfeas.1 jb hjb
  exact ⟨h6, h2, h3, h4, h5⟩

/-- Witness for `C6_end_start_bounds` at the concrete instance. -/
theorem C6_end_start_bounds_wit :
    HORIZONTE_MINUTOS = 7 * 8 * 60 ∧
    ∀ jb ∈ jobsBEx,
      solBEx.endv jb.id_job = solBEx.start jb.id_job + duracionMinutos jb ∧
      0 ≤ solBEx.start jb.id_job ∧ solBEx.start jb.id_job ≤ HORIZONTE_MINUTOS ∧
      0 ≤ solBEx.endv jb.id_job ∧ solBEx.endv jb.id_job ≤ HORIZONTE_MINUTOS :=
  C6_end_start_bounds jobsBEx asigsBEx solBEx solBEx_feasible

/-! ## Claim C8 -/

/-- C8, as stated, is false in the Job-without-Assignment direction: with
one job and an empty assignment artifact, the job is *not* excluded from
the model (its interval equation binds every feasible schedule), it
appears in the schedule output labelled `"No asignado"`, and the
`jobs_omitidos` mismatch counter stays 0 (no diagnostic). -/
theorem C8_unassigned_job_not_excluded_cex :
    (scheduleData
        [{ id_job := "j1", duracion_horas := 1, deadlineDays := 5,
           descripcion := "d", skill_requerida := "s" }] []
        { start := fun _ => 0, endv := fun _ => 0 }).map (·.job_id) = ["j1"] ∧
    tecnicoAsignado [] "j1" = "No asignado" ∧
    jobsOmitidos
        [{ id_job := "j1", duracion_horas := 1, deadlineDays := 5,
           descripcion := "d", skill_requerida := "s" }] [] = 0 ∧
    ¬schedFeasible
        [{ id_job := "j1", duracion_horas := 1, deadlineDays := 5,
           descripcion := "d", skill_requerida := "s" }] []
        { start := fun _ => 0, endv := fun _ => 0 } := by
  refine ⟨by decide, by decide, by decide, fun h => ?_⟩
  have h6 := (h.1 _ (List.mem_cons_self _ _)).2.2.2.2.2
  rw [durMinutos_one] at h6
  exact absurd h6 (by decide)

/-- C8 (amended): (i) an assignment-artifact row whose job id has no row
in the jobs table is reported in the `jobs_omitidos` diagnostics and is
excluded from every technician's no-overlap interval list; (ii) a jobs
row absent from the assignment artifact is *not* excluded: it keeps its
interval constraints in every feasible schedule, it appears in the
schedule output, and its technician column reads `"No asignado"`. -/
theorem C8_mismatch_handling :
    (∀ (jobs : List JobB) (asigs : List Asig) (a : Asig), a ∈ asigs →
        jobs.any (fun jb => jb.id_job == a.job_id) = false →
          a ∈ omittedAsigs jobs asigs ∧
          ∀ tec, a.job_id ∉ jobsPorTecnico jobs asigs tec) ∧
    (∀ (jobs : List JobB) (asigs : List Asig) (sol : ScheduleSol) (jb : JobB),
        jb ∈ jobs →
          jb.id_job ∈ (scheduleData jobs asigs sol).map (·.job_id) ∧
          (schedFeasible jobs asigs sol →
            sol.endv jb.id_job = sol.start jb.id_job + duracionMinutos jb) ∧
          (asigs.find? (fun a => a.job_id == jb.id_job) = none →
            tecnicoAsignado asigs jb.id_job = "No asignado")) := by
  constructor
  · intro jobs asigs a ha hnone
    refine ⟨List.mem_filter.mpr ⟨ha, by simp [hnone]⟩, fun tec hmem => ?_⟩
    unfold jobsPorTecnico at hmem
    obtain ⟨b, hb, hbid⟩ := List.mem_map.mp hmem
    have hbf := (List.mem_filter.mp hb).2
    simp only [Bool.and_eq_true] at hbf
    rw [hbid] at hbf
    rw [hbf.2] at hnone
    cases hnone
  · intro jobs asigs sol jb hjb
    refine ⟨?_, fun hfeas => (hfeas.1 jb hjb).2.2.2.2.2, fun hnone => ?_⟩
    · unfold scheduleData
      rw [List.map_map]
      exact List.mem_map.mpr ⟨jb, hjb, rfl⟩
    · unfold tecnicoAsignado
      rw [hnone]

/-- Witness for `C8_mismatch_handling`: the first part at an artifact row
`("jx", "t1")` with no matching jobs row, the second at `jobsBEx`. -/
theorem C8_mismatch_handling_wit :
    (({ job_id := "jx", tecnico_id := "t1" } : Asig) ∈
        omittedAsigs jobsBEx [{ job_id := "jx", tecnico_id := "t1" }] ∧
      ∀ tec, "jx" ∉ jobsPorTecnico jobsBEx [{ job_id := "jx", tecnico_id := "t1" }] tec) ∧
    ("j1" ∈ (scheduleData jobsBEx [] solBEx).map (·.job_id) ∧
      (schedFeasible jobsBEx [] solBEx →
        solBEx.endv "j1" = solBEx.start "j1" +
          duracionMinutos { id_job := "j1", duracion_horas := 1, deadlineDays := 5,
                            descripcion := "d1", skill_requerida := "s" }) ∧
      (([] : List Asig).find? (fun a => a.job_id == "j1") = none →
        tecnicoAsignado [] "j1" = "No asignado")) :=
  ⟨C8_mismatch_handling.1 jobsBEx [{ job_id := "jx", tecnico_id := "t1" }]
      { job_id := "jx", tecnico_id := "t1" } (by decide) (by decide),
   C8_mismatch_handling.2 jobsBEx [] solBEx
      { id_job := "j1", duracion_horas := 1, deadlineDays := 5,
        descripcion := "d1", skill_requerida := "s" } (by decide)⟩

/-! ## Claim C7 -/

/-- If no variable value reads back as 1, the output loop builds no
row. -/
theorem resultados_const_false (jobs : List Job) (tecnicos : List Tecnico)
    (sol : AsgSolution) (h : ∀ j t, sol.x j t = false) :
    resultados jobs tecnicos sol = [] := by
  unfold resultados
  rw [List.flatten_eq_nil_iff]
  intro l hl
  obtain ⟨t, -, rfl⟩ := List.mem_map.mp hl
  have hf : (jobIds jobs).filter (fun j => sol.x j t) = [] :=
    List.filter_eq_nil_iff.mpr (fun a _ => by simp [h a t])
  rw [hf]
  rfl

/-- C7, as stated, is false: stage (b)'s terminal behavior on an
`INFEASIBLE` model is observably identical to its behavior on `UNKNOWN`
(a timeout without solution) — same withheld artifact, same console
message — so `INFEASIBLE` is not reported distinctly from a solver
timeout. -/
theorem C7_infeasible_conflated_cex :
    stageBMensaje CpStatus.infeasible = stageBMensaje CpStatus.unknown ∧
    stageBWritesSchedule CpStatus.infeasible = stageBWritesSchedule CpStatus.unknown ∧
    CpStatus.infeasible ≠ CpStatus.unknown := by
  decide

/-- C7 (amended): on an infeasible run stage (a) prints the distinct
status name `Infeasible` and produces no result table, but through a
crash rather than a designed status branch: with `pulp.value(L) = None`
the `:.2f` format at line 116 raises, and with all values read back as 0
the empty result frame makes the line-146 merge raise; whether the
tables are written never depends on the status code.  Stage (b)
withholds its schedule artifact for every status other than
`OPTIMAL`/`FEASIBLE` — `INFEASIBLE` included — but reports one failure
message that does not distinguish `INFEASIBLE` from a timeout without
solution (`UNKNOWN`). -/
theorem C7_status_artifact_behavior :
    (∀ (jobs : List Job) (tecnicos : List Tecnico)
        (xv : String → String → Option ℚ),
        (stageAPostSolve jobs tecnicos
            { status := -1, lVal := none, xVal := xv }).printedStatus = "Infeasible" ∧
        (stageAPostSolve jobs tecnicos
            { status := -1, lVal := none, xVal := xv }).ending =
          StageAEnd.crashFormatNone ∧
        (stageAPostSolve jobs tecnicos
            { status := -1, lVal := none, xVal := xv }).assignmentCsvWritten = false ∧
        (stageAPostSolve jobs tecnicos
            { status := -1, lVal := none, xVal := xv }).cargasCsvWritten = false ∧
        (stageAPostSolve jobs tecnicos
            { status := -1, lVal := none, xVal := xv }).logWritten = false) ∧
    (∀ (jobs : List Job) (tecnicos : List Tecnico) (lv : ℚ),
        (stageAPostSolve jobs tecnicos
            { status := -1, lVal := some lv, xVal := fun _ _ => some 0 }).ending =
          StageAEnd.crashMergeEmpty ∧
        (stageAPostSolve jobs tecnicos
            { status := -1, lVal := some lv,
              xVal := fun _ _ => some 0 }).assignmentCsvWritten = false) ∧
    (∀ (jobs : List Job) (tecnicos : List Tecnico) (s1 s2 : Int)
        (lv : Option ℚ) (xv : String → String → Option ℚ),
        (stageAPostSolve jobs tecnicos
            { status := s1, lVal := lv, xVal := xv }).ending =
          (stageAPostSolve jobs tecnicos
            { status := s2, lVal := lv, xVal := xv }).ending ∧
        (stageAPostSolve jobs tecnicos
            { status := s1, lVal := lv, xVal := xv }).assignmentCsvWritten =
          (stageAPostSolve jobs tecnicos
            { status := s2, lVal := lv, xVal := xv }).assignmentCsvWritten) ∧
    (stageBWritesSchedule CpStatus.optimal = true ∧
      stageBWritesSchedule CpStatus.feasible = true ∧
      stageBWritesSchedule CpStatus.infeasible = false ∧
      stageBWritesSchedule CpStatus.unknown = false ∧
      stageBWritesSchedule CpStatus.modelInvalid = false) ∧
    stageBMensaje CpStatus.infeasible = stageBMensaje CpStatus.unknown := by
  refine ⟨?_, ?_, ?_, by decide, by decide⟩
  · intro jobs tecnicos xv
    refine ⟨by simp +decide [stageAPostSolve, lpStatusName], ?_, ?_, ?_, ?_⟩ <;>
      simp +decide [stageAPostSolve, stageAEnding]
  · intro jobs tecnicos lv
    have hres : resultados jobs tecnicos
        (xIsOne { status := -1, lVal := some lv, xVal := fun _ _ => some 0 }) = [] :=
      resultados_const_false _ _ _ (fun j t => by rfl)
    constructor <;>
      · simp +decide [stageAPostSolve, stageAEnding, hres]
  · intro jobs tecnicos s1 s2 lv xv
    exact ⟨rfl, rfl⟩

/-- Witness for `C7_status_artifact_behavior` at a concrete instance. -/
theorem C7_status_artifact_behavior_wit :
    (stageAPostSolve jobsEx tecsEx
        { status := -1, lVal := none, xVal := fun _ _ => none }).printedStatus =
      "Infeasible" ∧
    (stageAPostSolve jobsEx tecsEx
        { status := -1, lVal := none, xVal := fun _ _ => none }).assignmentCsvWritten =
      false :=
  ⟨(C7_status_artifact_behavior.1 jobsEx tecsEx (fun _ _ => none)).1,
    (C7_status_artifact_behavior.1 jobsEx tecsEx (fun _ _ => none)).2.2.1⟩

/-! ## Claim C9 -/

/-- C9, as stated, is false for stage (b): with every input present
except the jobs column `descripcion`, the run fails only in the result
section — *after* the solve attempt — because stage (b) validates no
columns and `descripcion` is first used at line 181. -/
theorem C9_missing_column_after_solve_cex :
    stageBFirstFailure
        ⟨true, true, true, true, true, true, false, true, true, true⟩ =
      some FaseB.resultadosLoop ∧
    stageBSolveAttempted
        ⟨true, true, true, true, true, true, false, true, true, true⟩ = true := by
  decide

/-- C9 (amended): stage (a) aborts before its solve on any missing file
or required column; stage (b) aborts before its solve on a missing file
and on a missing column among those first used before the solve
(`duracion_horas`, `id_job`, the assignment columns, `deadline`), but a
missing column first used in the result section (`descripcion` or
`skill_requerida`) fails only after the solve attempt. -/
theorem C9_validation_behavior :
    (∀ c : ColsA, filesAOk c = false ∨ colsAOk c = false →
        (stageAValidate c).isSome = true ∧ stageASolveAttempted c = false) ∧
    (∀ c : ColsB, (c.jobsFile && c.tecnicosFile && c.asignacionesFile) = false →
        stageBFirstFailure c = some FaseB.carga ∧ stageBSolveAttempted c = false) ∧
    (∀ c : ColsB,
        (c.jobs_duracion_horas = false ∨ c.jobs_id_job = false ∨
          (c.asig_tecnico && c.asig_job) = false ∨ c.jobs_deadline = false) →
        stageBSolveAttempted c = false) ∧
    (∀ c : ColsB, (c.jobsFile && c.tecnicosFile && c.asignacionesFile) = true →
        c.jobs_duracion_horas = true → c.jobs_id_job = true →
        (c.asig_tecnico && c.asig_job) = true → c.jobs_deadline = true →
        (c.jobs_descripcion && c.jobs_skill_requerida) = false →
        stageBFirstFailure c = some FaseB.resultadosLoop ∧
          stageBSolveAttempted c = true) := by
  refine ⟨?_, ?_, ?_, ?_⟩
  · intro c h
    rcases h with h | h
    · simp [stageAValidate, stageASolveAttempted, h]
    · cases hA : filesAOk c <;>
        simp [stageAValidate, stageASolveAttempted, h, hA]
  · intro c h
    simp [stageBFirstFailure, stageBSolveAttempted, h]
  · intro c h
    rcases h with h | h | h | h
    · cases hA : (c.jobsFile && c.tecnicosFile && c.asignacionesFile) <;>
        simp [stageBFirstFailure, stageBSolveAttempted, h, hA]
    · cases hA : (c.jobsFile && c.tecnicosFile && c.asignacionesFile) <;>
        cases hB : c.jobs_duracion_horas <;>
          simp [stageBFirstFailure, stageBSolveAttempted, h, hA, hB]
    · cases hA : (c.jobsFile && c.tecnicosFile && c.asignacionesFile) <;>
        cases hB : c.jobs_duracion_horas <;>
          cases hC : c.jobs_id_job <;>
            simp [stageBFirstFailure, stageBSolveAttempted, h, hA, hB, hC]
    · cases hA : (c.jobsFile && c.tecnicosFile && c.asignacionesFile) <;>
        cases hB : c.jobs_duracion_horas <;>
          cases hC : c.jobs_id_job <;>
            cases hD : (c.asig_tecnico && c.asig_job) <;>
              simp [stageBFirstFailure, stageBSolveAttempted, h, hA, hB, hC, hD]
  · intro c h1 h2 h3 h4 h5 h6
    simp [stageBFirstFailure, stageBSolveAttempted, h1, h2, h3, h4, h5, h6]

/-- Witness for `C9_validation_behavior`: stage (a) with the jobs file
missing does not reach its solve. -/
theorem C9_validation_behavior_wit :
    (stageAValidate
        ⟨false, true, true, true, true, true, true, true, true, true, true⟩).isSome = true ∧
    stageASolveAttempted
        ⟨false, true, true, true, true, true, true, true, true, true, true⟩ = false :=
  C9_validation_behavior.1
    ⟨false, true, true, true, true, true, true, true, true, true, true⟩ (by decide)
